import Mathlib

/-!
Verification of the korifi identity-scoped repository / presenter /
error-translation layer against its specification.

The repository's visible sources are the route-handler unit test
(`apis/route_handler_test.go`), the orgs e2e test
(`api/tests/e2e/orgs_test.go`) and a generated fake. The handler,
presenter, translator and org endpoint bodies themselves are not in the
source set, so they are modelled from the spec (sections 3, 4.3, 4.4, 6,
7, 8), with the tests fixing the concrete expected outputs.
-/

/-- DomainRecord, as in `repositories.DomainRecord` used by the route
handler test: a GUID and a fully-qualified DNS name. -/
structure DomainRecord where
  GUID : String
  Name : String
deriving DecidableEq, Repr

/-- A single route destination. Only its GUID matters to the claims. -/
structure DestinationRecord where
  GUID : String
deriving DecidableEq, Repr

/-- RouteRecord, as in `repositories.RouteRecord` constructed in the
route handler test: GUID, SpaceGUID, an attached DomainRef, Host, Path,
Protocol, an optional Port, and Destinations. Destinations is an
`Option (List _)` because the Go field is a slice whose zero value is
nil (and nil marshals to JSON null, distinct from an empty slice).
Label and annotation maps come from the spec data model (section 3) and
default to empty. There is no stored URL field. -/
structure RouteRecord where
  GUID : String
  SpaceGUID : String
  DomainRef : DomainRecord
  Host : String
  Path : String
  Protocol : String
  Port : Option Nat
  Destinations : Option (List DestinationRecord)
  Labels : List (String × String)
  Annotations : List (String × String)
deriving DecidableEq, Repr

/-- OrganizationRecord from the spec data model: GUID, Name (unique
among non-deleted organizations), suspended flag. -/
structure OrgRecord where
  GUID : String
  Name : String
  Suspended : Bool
deriving DecidableEq, Repr

/-- Modelled from the spec: the closed error taxonomy of section 7
(`NotFoundError`, `ForbiddenError`, `UnprocessableEntityError`,
`UnknownError`), plus a catch-all case `other` standing for any Go
error value that is none of the four taxonomy kinds (Go errors form an
open type; the route handler test's `errors.New("unknown!")` is such a
value). `notFound` carries the wrapped cause, as in the test's
`repositories.NotFoundError{Err: ...}`. -/
inductive RepoError where
  | notFound (err : String)
  | forbidden (err : String)
  | unprocessableEntity (detail : String)
  | unknown (cause : String)
  | other (msg : String)
deriving DecidableEq, Repr

/-- One entry of the wire error envelope: numeric code, title, detail. -/
structure ErrorEnvelope where
  code : Nat
  title : String
  detail : String
deriving DecidableEq, Repr

/-- An HTTP response as observed by the tests: status code,
Content-Type header value, and body. -/
structure HTTPResponse where
  status : Nat
  contentType : String
  body : String
deriving DecidableEq, Repr

/-- The JSON Content-Type header value expected by every branch of the
route handler test. -/
def jsonHeader : String := "application/json"

/-- Wraps a string in JSON double quotes. The inputs exercised by the
spec and tests contain no characters needing JSON escaping. -/
def jsonStr (s : String) : String := "\"" ++ s ++ "\""

/-- Renders a label or annotation map as a JSON object; an empty map
renders as the empty object, never as null. -/
def renderKVPairs (kvs : List (String × String)) : String :=
  "\x7b" ++ String.intercalate "," (kvs.map (fun kv => jsonStr kv.1 ++ ":" ++ jsonStr kv.2)) ++ "\x7d"

/-- Renders the destinations field: a nil slice (`none`) renders as
JSON null — exactly what the route handler test's expected body and the
spec's section 6 wire example show — while a present list renders as a
JSON array. -/
def renderDestinations : Option (List DestinationRecord) → String
  | none => "null"
  | some ds => "[" ++ String.intercalate "," (ds.map (fun d => "\x7b\"guid\":" ++ jsonStr d.GUID ++ "\x7d")) ++ "]"

/-- Renders the optional port: absent renders as JSON null. -/
def renderPort : Option Nat → String
  | none => "null"
  | some p => toString p

/-- Renders the single-entry error envelope of section 6:
a JSON object holding an `errors` array with code, title and detail. -/
def renderError (e : ErrorEnvelope) : String :=
  "\x7b\"errors\":[\x7b\"code\":" ++ toString e.code ++ ",\"title\":" ++ jsonStr e.title ++
    ",\"detail\":" ++ jsonStr e.detail ++ "\x7d]\x7d"

/-- The generic envelope for unknown / unrecognized failures. -/
def unknownErrorEnvelope : ErrorEnvelope :=
  { code := 10001, title := "UnknownError", detail := "An unknown error occurred." }

/-- The not-found envelope; the handler supplies the resource type. -/
def notFoundEnvelope (resourceType : String) : ErrorEnvelope :=
  { code := 10010, title := "CF-ResourceNotFound", detail := resourceType ++ " not found" }

/-- The fixed 500 response used for every unrecognized failure. -/
def unknownErrorResponse : HTTPResponse :=
  { status := 500, contentType := jsonHeader, body := renderError unknownErrorEnvelope }

/-- Modelled from the spec: the route's derived external URL
(section 3): `Host + "." + Domain.Name` when Host is non-empty, else
`Domain.Name` alone. The presenter source is not in the source set; the
route handler test fixes the expected value for Host
"test-route-name" and domain "example.org". -/
def routeURL (r : RouteRecord) : String :=
  if r.Host = "" then r.DomainRef.Name else r.Host ++ "." ++ r.DomainRef.Name

/-- The externally visible route representation assembled by the
presenter: attributes, the derived URL, relationship GUIDs, metadata
maps and HATEOAS links. -/
structure RoutePresentation where
  GUID : String
  Port : Option Nat
  Path : String
  Protocol : String
  Host : String
  URL : String
  Destinations : Option (List DestinationRecord)
  SpaceGUID : String
  DomainGUID : String
  Labels : List (String × String)
  Annotations : List (String × String)
  SelfLink : String
  SpaceLink : String
  DomainLink : String
  DestinationsLink : String
deriving DecidableEq, Repr

/-- Modelled from the spec: the route Presenter (section 4.4): a pure
function of the record and the configured server base URL, computing
the derived URL and the canonical links. The presenter source is not in
the source set; the route handler test fixes its output shape. -/
def presentRoute (r : RouteRecord) (base : String) : RoutePresentation :=
  { GUID := r.GUID
    Port := r.Port
    Path := r.Path
    Protocol := r.Protocol
    Host := r.Host
    URL := routeURL r
    Destinations := r.Destinations
    SpaceGUID := r.SpaceGUID
    DomainGUID := r.DomainRef.GUID
    Labels := r.Labels
    Annotations := r.Annotations
    SelfLink := base ++ "/v3/routes/" ++ r.GUID
    SpaceLink := base ++ "/v3/spaces/" ++ r.SpaceGUID
    DomainLink := base ++ "/v3/domains/" ++ r.DomainRef.GUID
    DestinationsLink := base ++ "/v3/routes/" ++ r.GUID ++ "/destinations" }

/-- Serializes a route presentation to its JSON body, in the key order
of the route handler test's expected body. -/
def renderRoutePresentation (p : RoutePresentation) : String :=
  "\x7b\"guid\":" ++ jsonStr p.GUID ++
  ",\"port\":" ++ renderPort p.Port ++
  ",\"path\":" ++ jsonStr p.Path ++
  ",\"protocol\":" ++ jsonStr p.Protocol ++
  ",\"host\":" ++ jsonStr p.Host ++
  ",\"url\":" ++ jsonStr p.URL ++
  ",\"destinations\":" ++ renderDestinations p.Destinations ++
  ",\"relationships\":\x7b\"space\":\x7b\"data\":\x7b\"guid\":" ++ jsonStr p.SpaceGUID ++
    "\x7d\x7d,\"domain\":\x7b\"data\":\x7b\"guid\":" ++ jsonStr p.DomainGUID ++ "\x7d\x7d\x7d" ++
  ",\"metadata\":\x7b\"labels\":" ++ renderKVPairs p.Labels ++
    ",\"annotations\":" ++ renderKVPairs p.Annotations ++ "\x7d" ++
  ",\"links\":\x7b\"self\":\x7b\"href\":" ++ jsonStr p.SelfLink ++
    "\x7d,\"space\":\x7b\"href\":" ++ jsonStr p.SpaceLink ++
    "\x7d,\"domain\":\x7b\"href\":" ++ jsonStr p.DomainLink ++
    "\x7d,\"destinations\":\x7b\"href\":" ++ jsonStr p.DestinationsLink ++ "\x7d\x7d\x7d"

/-- The full presented route body: render after present. -/
def presentRouteBody (r : RouteRecord) (base : String) : String :=
  renderRoutePresentation (presentRoute r base)

/-- Modelled from the spec: the route GET handler's error rendering.
The handler source is not in the source set; the route handler test
fixes the behavior: a repository `NotFoundError` yields 404 with the
"Route not found" envelope, and every other failure yields the fixed
500 `UnknownError` response (sections 6 and 7). -/
def routeGetErrorResponse : RepoError → HTTPResponse
  | RepoError.notFound _ =>
    { status := 404, contentType := jsonHeader, body := renderError (notFoundEnvelope "Route") }
  | _ => unknownErrorResponse

/-- Modelled from the spec: `GET /v3/routes/:guid` (sections 4.2, 6, 8).
The handler source is not in the source set. The handler fetches the
route, then fetches the referenced domain and attaches it to the record,
then presents; a route-fetch failure goes through the handler's error
rendering, and any domain-fetch failure — not-found included — yields the
generic 500 `UnknownError` response, as the test's
"the route's domain cannot be found" case fixes. The fetch results stand
for the repository calls' outcomes. -/
def routeGetHandler (routeResult : Except RepoError RouteRecord)
    (domainResult : Except RepoError DomainRecord) (base : String) : HTTPResponse :=
  match routeResult with
  | Except.error e => routeGetErrorResponse e
  | Except.ok route =>
    match domainResult with
    | Except.error _ => unknownErrorResponse
    | Except.ok domain =>
      { status := 200
        contentType := jsonHeader
        body := presentRouteBody { route with DomainRef := domain } base }

/-- Modelled from the spec: the ErrorTranslator (section 4.3), a total
function from any error to an HTTP status and envelope via the fixed
taxonomy table of section 6; every unrecognized error is treated
identically to `UnknownError`. The translator source is not in the
source set. The resource type parameterizes the not-found detail. -/
def translateError (resourceType : String) : RepoError → Nat × ErrorEnvelope
  | RepoError.notFound _ => (404, notFoundEnvelope resourceType)
  | RepoError.forbidden _ =>
    (403, { code := 10003, title := "CF-NotAuthorized"
            detail := "You are not authorized to perform the requested action" })
  | RepoError.unprocessableEntity d =>
    (422, { code := 10008, title := "CF-UnprocessableEntity", detail := d })
  | RepoError.unknown _ => (500, unknownErrorEnvelope)
  | RepoError.other _ => (500, unknownErrorEnvelope)

/-- The server base URL the route handler test presents against. -/
def defaultServerURL : String := "https://api.example.org"

/-- The RouteRecord the test's route repository returns: remaining
fields are Go zero values (empty Path, nil Port, nil Destinations,
empty maps); the DomainRef carries only the GUID until the handler
attaches the fetched domain. -/
def testRouteRecord : RouteRecord :=
  { GUID := "test-route-guid"
    SpaceGUID := "test-space-guid"
    DomainRef := { GUID := "test-domain-guid", Name := "" }
    Host := "test-route-name"
    Path := ""
    Protocol := "http"
    Port := none
    Destinations := none
    Labels := []
    Annotations := [] }

/-- The DomainRecord the test's domain repository returns. -/
def testDomainRecord : DomainRecord :=
  { GUID := "test-domain-guid", Name := "example.org" }

/-- The org create endpoint's outcome as the e2e test observes it:
status, the created resource on success, and the error entries. -/
structure OrgCreateResponse where
  status : Nat
  result : Option OrgRecord
  errors : List ErrorEnvelope
deriving DecidableEq, Repr

/-- The envelope for a duplicate organization name (section 6): 422,
code 10008, title CF-UnprocessableEntity, detail naming the value. -/
def dupOrgEnvelope (name : String) : ErrorEnvelope :=
  { code := 10008, title := "CF-UnprocessableEntity"
    detail := "Organization \x27" ++ name ++ "\x27 already exists." }

/-- The envelope for a denied create (section 6; code is
domain-specific per the spec table, title CF-NotAuthorized). -/
def forbiddenEnvelope : ErrorEnvelope :=
  { code := 10003, title := "CF-NotAuthorized"
    detail := "You are not authorized to perform the requested action" }

/-- Modelled from the spec: `POST /v3/organizations` (sections 4.2 and
6); the handler and repository sources are not in the source set, only
the e2e test. `existing` holds the non-deleted organizations; a caller
without create privilege gets 403; a duplicate name gets 422 with the
single duplicate-name envelope; otherwise the cluster assigns `newGuid`
and the created record echoes the requested name. -/
def createOrg (authorized : Bool) (existing : List OrgRecord) (name newGuid : String) : OrgCreateResponse :=
  if authorized then
    if existing.any (fun o => o.Name == name) then
      { status := 422, result := none, errors := [dupOrgEnvelope name] }
    else
      { status := 201
        result := some { GUID := newGuid, Name := name, Suspended := false }
        errors := [] }
  else
    { status := 403, result := none, errors := [forbiddenEnvelope] }

/-- Modelled from the spec: `GET /v3/organizations` (sections 4.2 and
6); the handler and repository sources are not in the source set, only
the e2e test. `visible` is the cluster RBAC visibility predicate on org
GUIDs; the result is the visible organizations, further restricted to
the `names` set when that filter is supplied. -/
def listOrgs (orgs : List OrgRecord) (visible : String → Bool) (namesFilter : Option (List String)) : List OrgRecord :=
  let vis := orgs.filter (fun o => visible o.GUID)
  match namesFilter with
  | none => vis
  | some ns => vis.filter (fun o => decide (o.Name ∈ ns))

set_option maxRecDepth 10000 in
/-- Sanity anchor: on the route handler test's exact inputs the modelled
handler produces 200 and precisely the body the test expects (modulo
the test's whitespace, which MatchJSON ignores). -/
theorem routeGetHandler_success_concrete :
    routeGetHandler (Except.ok testRouteRecord) (Except.ok testDomainRecord) defaultServerURL =
      { status := 200
        contentType := "application/json"
        body := "\x7b\"guid\":\"test-route-guid\",\"port\":null,\"path\":\"\",\"protocol\":\"http\",\"host\":\"test-route-name\",\"url\":\"test-route-name.example.org\",\"destinations\":null,\"relationships\":\x7b\"space\":\x7b\"data\":\x7b\"guid\":\"test-space-guid\"\x7d\x7d,\"domain\":\x7b\"data\":\x7b\"guid\":\"test-domain-guid\"\x7d\x7d\x7d,\"metadata\":\x7b\"labels\":\x7b\x7d,\"annotations\":\x7b\x7d\x7d,\"links\":\x7b\"self\":\x7b\"href\":\"https://api.example.org/v3/routes/test-route-guid\"\x7d,\"space\":\x7b\"href\":\"https://api.example.org/v3/spaces/test-space-guid\"\x7d,\"domain\":\x7b\"href\":\"https://api.example.org/v3/domains/test-domain-guid\"\x7d,\"destinations\":\x7b\"href\":\"https://api.example.org/v3/routes/test-route-guid/destinations\"\x7d\x7d\x7d" } := by
  rfl

/-- Claim C1: for every RouteRecord with an attached DomainRecord, the
presented url equals Host plus "." plus Domain.Name when Host is
non-empty, and Domain.Name alone when Host is empty; and the url is
recomputed from the record at presentation time — changing the attached
domain name before presenting changes the presented url accordingly
(the record stores no url field to read back). -/
theorem c1_route_url_derivation (r : RouteRecord) (base : String) :
    (presentRoute r base).URL =
        (if r.Host = "" then r.DomainRef.Name else r.Host ++ "." ++ r.DomainRef.Name) ∧
    ∀ n : String,
      (presentRoute { r with DomainRef := { GUID := r.DomainRef.GUID, Name := n } } base).URL =
        (if r.Host = "" then n else r.Host ++ "." ++ n) := by
  exact ⟨rfl, fun n => rfl⟩

/-- Claim C2: when the route fetch succeeds but the domain fetch fails
with NotFoundError, the handler answers 500 with the generic
UnknownError envelope (code 10001, title UnknownError, detail
"An unknown error occurred."), never 404 and never any domain-specific
not-found detail. -/
theorem c2_domain_not_found_yields_500 (route : RouteRecord) (m base : String) :
    routeGetHandler (Except.ok route) (Except.error (RepoError.notFound m)) base =
      unknownErrorResponse ∧
    unknownErrorResponse.status = 500 ∧
    unknownErrorResponse.status ≠ 404 ∧
    unknownErrorResponse.body =
      "\x7b\"errors\":[\x7b\"code\":10001,\"title\":\"UnknownError\",\"detail\":\"An unknown error occurred.\"\x7d]\x7d" := by
  refine ⟨rfl, rfl, by decide, rfl⟩

/-- Claim C4: a NotFoundError from the route repository yields 404 with
exactly the body listing code 10010, title CF-ResourceNotFound and
detail "Route not found", whatever the wrapped cause and whatever the
domain fetch would have returned. -/
theorem c4_route_not_found_404 (m base : String) (d : Except RepoError DomainRecord) :
    routeGetHandler (Except.error (RepoError.notFound m)) d base =
      { status := 404
        contentType := jsonHeader
        body := "\x7b\"errors\":[\x7b\"code\":10010,\"title\":\"CF-ResourceNotFound\",\"detail\":\"Route not found\"\x7d]\x7d" } := by
  rfl

/-- Claim C5: an error that is none of the four taxonomy kinds
translates to 500 with the generic UnknownError envelope regardless of
its message, both through the ErrorTranslator and through the route GET
handler; the translator is total by construction (it is a Lean function
defined on every RepoError). -/
theorem c5_unrecognized_error_500 (msg rt base : String) (d : Except RepoError DomainRecord) :
    translateError rt (RepoError.other msg) = (500, unknownErrorEnvelope) ∧
    routeGetHandler (Except.error (RepoError.other msg)) d base = unknownErrorResponse ∧
    unknownErrorResponse.status = 500 ∧
    unknownErrorResponse.body = renderError unknownErrorEnvelope := by
  exact ⟨rfl, rfl, rfl, rfl⟩

/-- Claim C10: every branch of the route GET handler — success,
route-not-found, domain-fetch failure, and unrecognized failure alike —
carries the same JSON Content-Type header. -/
theorem c10_content_type_constant (rr : Except RepoError RouteRecord)
    (dr : Except RepoError DomainRecord) (base : String) :
    (routeGetHandler rr dr base).contentType = jsonHeader ∧ jsonHeader = "application/json" := by
  refine ⟨?_, rfl⟩
  cases rr with
  | error e => cases e <;> rfl
  | ok route => cases dr <;> rfl

/-- Claim C9 (amended phrasing of purity): the presented body is a
deterministic pure function of the record and the server base URL —
presenting equal inputs twice yields byte-identical JSON. -/
theorem c9_presenter_deterministic (r1 r2 : RouteRecord) (b1 b2 : String)
    (hr : r1 = r2) (hb : b1 = b2) :
    presentRouteBody r1 b1 = presentRouteBody r2 b2 := by
  rw [hr, hb]

/-- Witness for C9 at the route handler test's record and base URL. -/
theorem c9_presenter_deterministic_witness :
    presentRouteBody testRouteRecord defaultServerURL =
      presentRouteBody testRouteRecord defaultServerURL :=
  c9_presenter_deterministic testRouteRecord testRouteRecord defaultServerURL defaultServerURL
    rfl rfl

/-- Counterexample to claim C3 as stated: for the route handler test's
record, which holds no destinations, the presenter emits JSON null for
the destinations field — not an empty collection — exactly as the test's
expected body and the spec's own wire example show. -/
theorem c3_empty_collections_counterexample :
    (presentRoute testRouteRecord defaultServerURL).Destinations = none ∧
    renderDestinations (presentRoute testRouteRecord defaultServerURL).Destinations = "null" ∧
    renderDestinations (presentRoute testRouteRecord defaultServerURL).Destinations ≠ "[]" := by
  refine ⟨rfl, rfl, by decide⟩

/-- Claim C3 as amended: labels and annotations default to the empty
JSON object (never null, never absent) when the record holds none,
while a route's destinations field is emitted as JSON null when the
record holds none. -/
theorem c3_collections_amended (r : RouteRecord) (base : String) :
    (r.Labels = [] → renderKVPairs (presentRoute r base).Labels = "\x7b\x7d") ∧
    (r.Annotations = [] → renderKVPairs (presentRoute r base).Annotations = "\x7b\x7d") ∧
    (r.Destinations = none → renderDestinations (presentRoute r base).Destinations = "null") := by
  refine ⟨fun h => ?_, fun h => ?_, fun h => ?_⟩
  · rw [show (presentRoute r base).Labels = r.Labels from rfl, h]; rfl
  · rw [show (presentRoute r base).Annotations = r.Annotations from rfl, h]; rfl
  · rw [show (presentRoute r base).Destinations = r.Destinations from rfl, h]; rfl

/-- Witness for the amended C3 at the route handler test's record. -/
theorem c3_collections_amended_witness :
    renderKVPairs (presentRoute testRouteRecord defaultServerURL).Labels = "\x7b\x7d" ∧
    renderKVPairs (presentRoute testRouteRecord defaultServerURL).Annotations = "\x7b\x7d" ∧
    renderDestinations (presentRoute testRouteRecord defaultServerURL).Destinations = "null" :=
  ⟨(c3_collections_amended testRouteRecord defaultServerURL).1 rfl,
   (c3_collections_amended testRouteRecord defaultServerURL).2.1 rfl,
   (c3_collections_amended testRouteRecord defaultServerURL).2.2 rfl⟩

/-- Claim C6: creating an organization whose name duplicates an
existing non-deleted organization's name yields 422 with exactly one
error entry carrying code 10008, title CF-UnprocessableEntity and
detail naming the offending value. -/
theorem c6_duplicate_org_422 (existing : List OrgRecord) (name newGuid : String)
    (hdup : existing.any (fun o => o.Name == name) = true) :
    (createOrg true existing name newGuid).status = 422 ∧
    (createOrg true existing name newGuid).errors =
      [{ code := 10008, title := "CF-UnprocessableEntity"
         detail := "Organization \x27" ++ name ++ "\x27 already exists." }] := by
  refine ⟨?_, ?_⟩ <;> simp [createOrg, hdup, dupOrgEnvelope]

/-- Witness for C6 at a concrete duplicate name. -/
theorem c6_duplicate_org_422_witness :
    (createOrg true [{ GUID := "g1", Name := "my-org", Suspended := false }] "my-org" "g2").status = 422 ∧
    (createOrg true [{ GUID := "g1", Name := "my-org", Suspended := false }] "my-org" "g2").errors =
      [{ code := 10008, title := "CF-UnprocessableEntity"
         detail := "Organization \x27" ++ "my-org" ++ "\x27 already exists." }] :=
  c6_duplicate_org_422 [{ GUID := "g1", Name := "my-org", Suspended := false }] "my-org" "g2"
    (by decide)

/-- Claim C7: creating an organization with a fresh name returns 201
with the returned name echoing the request and the cluster-assigned,
non-empty GUID when the caller holds create privilege, and 403 when the
caller lacks it. -/
theorem c7_create_org_success_and_forbidden (existing : List OrgRecord) (name newGuid : String)
    (hfresh : existing.any (fun o => o.Name == name) = false)
    (hguid : newGuid ≠ "") :
    (createOrg true existing name newGuid).status = 201 ∧
    (createOrg true existing name newGuid).result =
      some { GUID := newGuid, Name := name, Suspended := false } ∧
    newGuid ≠ "" ∧
    (createOrg false existing name newGuid).status = 403 := by
  refine ⟨?_, ?_, hguid, ?_⟩ <;> simp [createOrg, hfresh]

/-- Witness for C7 at a concrete fresh name. -/
theorem c7_create_org_success_and_forbidden_witness :
    (createOrg true [] "my-org" "org-guid").status = 201 ∧
    (createOrg true [] "my-org" "org-guid").result =
      some { GUID := "org-guid", Name := "my-org", Suspended := false } ∧
    ("org-guid" : String) ≠ "" ∧
    (createOrg false [] "my-org" "org-guid").status = 403 :=
  c7_create_org_success_and_forbidden [] "my-org" "org-guid" rfl (by decide)

/-- Claim C8: listing organizations returns exactly the organizations
the caller has visibility into — membership in the result is equivalent
to being one of the existing orgs and visible — and a names filter
further restricts the result to exactly the visible orgs whose names
lie in the given set; no order is asserted. -/
theorem c8_list_orgs_visibility (orgs : List OrgRecord) (visible : String → Bool) (o : OrgRecord) :
    (o ∈ listOrgs orgs visible none ↔ o ∈ orgs ∧ visible o.GUID = true) ∧
    ∀ ns : List String,
      (o ∈ listOrgs orgs visible (some ns) ↔ (o ∈ orgs ∧ visible o.GUID = true) ∧ o.Name ∈ ns) := by
  constructor
  · simp [listOrgs, List.mem_filter]
  · intro ns
    simp only [listOrgs, List.mem_filter, decide_eq_true_eq]
